import Mathlib

/-!
Verification of the PiGuard power-guard daemon (src/piguard.py) against its
natural-language specification.  The Python source is shallowly embedded:

* configuration loading and clamping (`PiGuard.load_config`, lines 133-140)
  becomes `load_config` over integer/rational raw values;
* the GPIO interrupt service routine (`PiGuard.isr`, lines 170-207) becomes
  `isr`, a pure function from the pin/heartbeat state and the per-edge
  environment (which pin fired, whether the UPS pulls the pulse pin low,
  whether the history write succeeds) to the new state together with a trace
  of the externally visible actions it performs, in program order;
* the I2C reads (`PiGuard.read_voltage` / `PiGuard.read_ups_mode`,
  lines 209-231) become total functions from the outcomes of the two bus
  primitives to the returned `Option` value plus an error-logged flag —
  totality of the embedding reflects that the `except IOError` handler keeps
  any bus fault from escaping the call;
* one iteration of the steady polling loop (`PiGuard.main`, lines 361-386)
  becomes `loopBody`; a `none` first component means the iteration raised an
  exception that is not handled inside the `while` (only `KeyboardInterrupt`
  is), i.e. the polling loop terminates;
* the mutex discipline of the ISR is modelled by `step`, a scheduler for two
  concurrent ISR invocations that may only run an action while holding the
  single pulse-pin lock.
-/

namespace PiGuard

/-- GPIO pin number carrying the UPS clock signal (source line 49). -/
def CLOCK_PIN : Nat := 27

/-- GPIO pin number of the bidirectional pulse line (source line 50). -/
def PULSE_PIN : Nat := 22

/-- Clamp bound: maximum shutdown delay (source line 27). -/
def MAX_SHUTDOWN_DELAY : ℤ := 235

/-- Clamp bound: minimum shutdown delay (source line 28). -/
def MIN_SHUTDOWN_DELAY : ℤ := 1

/-- Clamp bound: maximum watchdog timeout in minutes (source line 29). -/
def MAX_WATCHDOG_RPI : ℤ := 10

/-- Clamp bound: minimum watchdog timeout in minutes (source line 30). -/
def MIN_WATCHDOG_RPI : ℤ := 3

/-- Clamp bound: maximum main-loop interval in seconds (source line 31). -/
def MAX_LOOP_RUN_UPS : ℤ := 20

/-- Clamp bound: minimum main-loop interval in seconds (source line 32). -/
def MIN_LOOP_RUN_UPS : ℤ := 1

/-- Clamp bound: maximum post-shutdown grace in seconds (source line 33). -/
def MAX_POST_SHUTDOWN : ℤ := 254

/-- Clamp bound: minimum post-shutdown grace in seconds (source line 34). -/
def MIN_POST_SHUTDOWN : ℤ := 10

/-- Clamp bound: maximum history sampling period in seconds (source line 35). -/
def MAX_FREC_HISTORY : ℚ := 3600

/-- Clamp bound: minimum history sampling period in seconds (source line 36). -/
def MIN_FREC_HISTORY : ℚ := 20

/-- The five numeric configuration values.  `FREC_HISTORY` is parsed with
`float(...)` in the source, so it is embedded as a rational; the other four
are parsed with `int(...)`. -/
structure ConfigVars where
  SHUTDOWN_DELAY : ℤ
  WATCHDOG_RPI : ℤ
  LOOP_RUN_UPS : ℤ
  POST_SHUTDOWN : ℤ
  FREC_HISTORY : ℚ
deriving DecidableEq

/-- Clamping performed by `PiGuard.load_config` (source lines 133-137):
each raw value is replaced by `max(MIN, min(raw, MAX))`. -/
def load_config (raw : ConfigVars) : ConfigVars where
  SHUTDOWN_DELAY := max MIN_SHUTDOWN_DELAY (min raw.SHUTDOWN_DELAY MAX_SHUTDOWN_DELAY)
  WATCHDOG_RPI := max MIN_WATCHDOG_RPI (min raw.WATCHDOG_RPI MAX_WATCHDOG_RPI)
  LOOP_RUN_UPS := max MIN_LOOP_RUN_UPS (min raw.LOOP_RUN_UPS MAX_LOOP_RUN_UPS)
  POST_SHUTDOWN := max MIN_POST_SHUTDOWN (min raw.POST_SHUTDOWN MAX_POST_SHUTDOWN)
  FREC_HISTORY := max MIN_FREC_HISTORY (min raw.FREC_HISTORY MAX_FREC_HISTORY)

/-- Unit in which the startup log line renders the shutdown delay. -/
inductive DelayUnit where
  | minutes
  | hours
deriving DecidableEq

/-- Rendering of the clamped shutdown delay in the startup log line
(source lines 351-354): values below 181 are written as minutes, values of
181 and above are written as `value - 177` hours. -/
def shutdown_delay_display (sd : ℤ) : ℤ × DelayUnit :=
  if sd < 181 then (sd, DelayUnit.minutes) else (sd - 177, DelayUnit.hours)

/-- Externally visible actions performed by one run of `PiGuard.isr`,
in program order. -/
inductive Action where
  | acquire
  | release
  | readPin (v : Bool)
  | driveLow
  | setupInput
  | samplePin (v : Bool)
  | logWarning
  | writeShutdownEvent (ok : Bool)
  | logError
  | sleep (secs : Nat)
  | shutdownCall
  | setupOutput (level : Bool)
deriving DecidableEq

/-- State owned by the interrupt handler: `sqwave` is the heartbeat level
variable (source line 79), `pinDriven` is the level the pulse pin was last
configured to drive as an output. -/
structure IsrState where
  sqwave : Bool
  pinDriven : Bool
deriving DecidableEq

/-- State at the moment `GPIO.add_event_detect` arms the handler: `sqwave`
is initialised to `True` (source line 79) and the pulse pin is configured as
output at level `True` (source line 334). -/
def initIsrState : IsrState := { sqwave := true, pinDriven := true }

/-- One run of `PiGuard.isr` (source lines 170-207).  `channel` is the pin
that fired; edges from any pin other than `CLOCK_PIN` return immediately.
`extLow` tells whether the UPS is pulling the pulse line low while the pin
is an input (the pull-up makes the sampled value high otherwise), and
`writeOk` tells whether the append to the shutdown-event history file
succeeds.  Returns the new handler state and the action trace. -/
def isr (st : IsrState) (channel : Nat) (extLow : Bool) (writeOk : Bool) :
    IsrState × List Action :=
  if channel ≠ CLOCK_PIN then (st, [])
  else
    let sq := !st.pinDriven
    let sampled := !extLow
    let shutdownTrace : List Action :=
      if sampled = false then
        Action.logWarning ::
          (if writeOk then [Action.writeShutdownEvent true]
            else [Action.writeShutdownEvent false, Action.logError]) ++
          [Action.sleep 2, Action.shutdownCall]
      else []
    ({ sqwave := sq, pinDriven := sq },
      Action.acquire :: Action.readPin st.pinDriven :: Action.driveLow ::
        Action.setupInput :: Action.samplePin sampled ::
        shutdownTrace ++ [Action.setupOutput sq, Action.release])

/-- Fold of `isr` over a sequence of accepted clock edges; the list gives,
for each edge, whether the UPS pulls the pulse line low during the sampling
window.  History writes are taken to succeed. -/
def runIsr (st : IsrState) (edges : List Bool) : IsrState × List Action :=
  match edges with
  | [] => (st, [])
  | e :: es =>
    let r := isr st CLOCK_PIN e true
    let r2 := runIsr r.1 es
    (r2.1, r.2 ++ r2.2)

/-- Recognises the external shutdown invocation in a trace. -/
def isShutdownCall : Action → Bool
  | Action.shutdownCall => true
  | _ => false

/-- Number of external shutdown invocations in a trace. -/
def shutdownCount (tr : List Action) : Nat := tr.countP isShutdownCall

/-- Scheduler state for two concurrent invocations (`false` and `true`) of
the interrupt handler: the owner of the pulse-pin mutex, if any, and the
remaining action list of each invocation. -/
structure Sys where
  lock : Option Bool
  prog0 : List Action
  prog1 : List Action
deriving DecidableEq

/-- Remaining actions of invocation `t`. -/
def progOf (s : Sys) (t : Bool) : List Action :=
  bif t then s.prog1 else s.prog0

/-- Replace the remaining actions of invocation `t`. -/
def setProg (s : Sys) (t : Bool) (l : List Action) : Sys :=
  bif t then { s with prog1 := l } else { s with prog0 := l }

/-- One scheduler step of invocation `t`, respecting the `with
self.pulse_pin_mutex` discipline of the source (lines 179-207): `acquire`
runs only when the lock is free and takes it, `release` gives it back, and
every other action of the handler body runs only while `t` holds the lock.
`none` means invocation `t` cannot move. -/
def step (s : Sys) (t : Bool) : Option Sys :=
  match progOf s t with
  | [] => none
  | op :: rest =>
    if op = Action.acquire then
      if s.lock = none then some { setProg s t rest with lock := some t } else none
    else if op = Action.release then
      if s.lock = some t then some { setProg s t rest with lock := none } else none
    else
      if s.lock = some t then some (setProg s t rest) else none

/-- Observable events of one iteration of the steady polling loop
(source lines 361-386). -/
inductive LoopEvent where
  | eventAppendOk (mode : Nat)
  | eventAppendFail
  | logWriteError
  | sampleAppendOk (mode : Nat)
  | sampleAppendFail
  | sleepLoop
deriving DecidableEq

/-- Mutable bookkeeping of the steady loop: `history_write` is the time of
the last frequency-gated sample (source lines 76 and 373), `last_mode` the
last UPS mode recorded in the power-event log (source lines 359 and 380). -/
structure LoopState where
  history_write : ℚ
  last_mode : Option Nat
deriving DecidableEq

/-- One iteration of the `while True` loop of `PiGuard.main` (source lines
361-386).  `i2c` is `I2C_SEND_ENABLED`, `frec` is `FREC_HISTORY`, `now` is
`time.time()` at this tick, `voltage`/`mode` are the results of
`read_voltage`/`read_ups_mode`, `evOk` tells whether the append to the
power-event log succeeds, and `smOk` whether the append to the
periodic-sample log succeeds.  The first component is the loop state at the
next iteration, or `none` when the iteration raised an exception that the
loop does not handle (the `except` clause of the surrounding `try` only
catches `KeyboardInterrupt`), so the polling loop terminates.  The second
component is the event trace of the iteration, in program order. -/
def loopBody (frec : ℚ) (i2c : Bool) (st : LoopState) (now : ℚ)
    (voltage mode : Option Nat) (evOk smOk : Bool) :
    Option LoopState × List LoopEvent :=
  if i2c = false then (some st, [LoopEvent.sleepLoop])
  else
    match voltage, mode with
    | some _v, some m =>
      if frec ≤ now - st.history_write then
        if st.last_mode = none ∨ st.last_mode ≠ some m then
          if evOk then
            if smOk then
              (some { history_write := now, last_mode := some m },
                [LoopEvent.eventAppendOk m, LoopEvent.sampleAppendOk m,
                  LoopEvent.sleepLoop])
            else
              (none, [LoopEvent.eventAppendOk m, LoopEvent.sampleAppendFail])
          else
            if smOk then
              (some { history_write := now, last_mode := st.last_mode },
                [LoopEvent.eventAppendFail, LoopEvent.logWriteError,
                  LoopEvent.sampleAppendOk m, LoopEvent.sleepLoop])
            else
              (none, [LoopEvent.eventAppendFail, LoopEvent.logWriteError,
                LoopEvent.sampleAppendFail])
        else
          if smOk then
            (some { history_write := now, last_mode := st.last_mode },
              [LoopEvent.sampleAppendOk m, LoopEvent.sleepLoop])
          else
            (none, [LoopEvent.sampleAppendFail])
      else (some st, [LoopEvent.sleepLoop])
    | _, _ => (some st, [LoopEvent.sleepLoop])

/-- Recognises an attempt to append a power-event-log line. -/
def isEventAttempt : LoopEvent → Bool
  | LoopEvent.eventAppendOk _ => true
  | LoopEvent.eventAppendFail => true
  | _ => false

/-- A power-event-log append was attempted during the iteration. -/
def eventAttempted (tr : List LoopEvent) : Bool := tr.any isEventAttempt

/-- Recognises an attempt to append a periodic-sample-log line. -/
def isSampleAttempt : LoopEvent → Bool
  | LoopEvent.sampleAppendOk _ => true
  | LoopEvent.sampleAppendFail => true
  | _ => false

/-- A periodic-sample-log append was attempted during the iteration. -/
def sampleAttempted (tr : List LoopEvent) : Bool := tr.any isSampleAttempt

/-- `PiGuard.read_voltage` (source lines 209-219).  `writeRes` and `readRes`
are the outcomes of the two bus primitives `bus.write_byte` and
`bus.read_byte`; an `Except.error` outcome is an `IOError` raised by the
primitive.  The function returns the voltage byte, or `none` together with
the error-logged flag when a primitive failed — the `except IOError` handler
logs and returns, so the embedding is total: no error escapes the call. -/
def read_voltage (writeRes : Except Unit Unit) (readRes : Except Unit Nat) :
    Option Nat × Bool :=
  match writeRes with
  | Except.error _ => (none, true)
  | Except.ok _ =>
    match readRes with
    | Except.error _ => (none, true)
    | Except.ok v => (some v, false)

/-- `PiGuard.read_ups_mode` (source lines 221-231): identical structure to
`read_voltage` with the read-mode opcode. -/
def read_ups_mode (writeRes : Except Unit Unit) (readRes : Except Unit Nat) :
    Option Nat × Bool :=
  match writeRes with
  | Except.error _ => (none, true)
  | Except.ok _ =>
    match readRes with
    | Except.error _ => (none, true)
    | Except.ok v => (some v, false)

/-- Helper: a loop iteration outside the frequency gate only sleeps. -/
theorem loopBody_no_gate (frec : ℚ) (st : LoopState) (now : ℚ) (vv mm : Nat)
    (evOk smOk : Bool) (hg : ¬ frec ≤ now - st.history_write) :
    loopBody frec true st now (some vv) (some mm) evOk smOk =
      (some st, [LoopEvent.sleepLoop]) := by
  simp [loopBody, hg]

/-- Helper: gated iteration, unchanged mode, sample append succeeds. -/
theorem loopBody_same_mode_ok (frec : ℚ) (st : LoopState) (now : ℚ) (vv mm : Nat)
    (evOk : Bool) (hg : frec ≤ now - st.history_write)
    (hc : ¬ (st.last_mode = none ∨ st.last_mode ≠ some mm)) :
    loopBody frec true st now (some vv) (some mm) evOk true =
      (some { history_write := now, last_mode := st.last_mode },
        [LoopEvent.sampleAppendOk mm, LoopEvent.sleepLoop]) := by
  simp [loopBody, hg, hc]

/-- Helper: gated iteration, unchanged mode, sample append fails: the
iteration raises. -/
theorem loopBody_same_mode_fail (frec : ℚ) (st : LoopState) (now : ℚ) (vv mm : Nat)
    (evOk : Bool) (hg : frec ≤ now - st.history_write)
    (hc : ¬ (st.last_mode = none ∨ st.last_mode ≠ some mm)) :
    loopBody frec true st now (some vv) (some mm) evOk false =
      (none, [LoopEvent.sampleAppendFail]) := by
  simp [loopBody, hg, hc]

/-- Helper: gated iteration, mode change, both appends succeed. -/
theorem loopBody_change_ok_ok (frec : ℚ) (st : LoopState) (now : ℚ) (vv mm : Nat)
    (hg : frec ≤ now - st.history_write)
    (hc : st.last_mode = none ∨ st.last_mode ≠ some mm) :
    loopBody frec true st now (some vv) (some mm) true true =
      (some { history_write := now, last_mode := some mm },
        [LoopEvent.eventAppendOk mm, LoopEvent.sampleAppendOk mm,
          LoopEvent.sleepLoop]) := by
  simp [loopBody, hg, hc]

/-- Helper: gated iteration, mode change, event append succeeds but sample
append fails: the iteration raises. -/
theorem loopBody_change_ok_fail (frec : ℚ) (st : LoopState) (now : ℚ) (vv mm : Nat)
    (hg : frec ≤ now - st.history_write)
    (hc : st.last_mode = none ∨ st.last_mode ≠ some mm) :
    loopBody frec true st now (some vv) (some mm) true false =
      (none, [LoopEvent.eventAppendOk mm, LoopEvent.sampleAppendFail]) := by
  simp [loopBody, hg, hc]

/-- Helper: gated iteration, mode change, event append fails (caught and
logged), sample append succeeds: the iteration completes and `last_mode`
keeps its old value. -/
theorem loopBody_change_fail_ok (frec : ℚ) (st : LoopState) (now : ℚ) (vv mm : Nat)
    (hg : frec ≤ now - st.history_write)
    (hc : st.last_mode = none ∨ st.last_mode ≠ some mm) :
    loopBody frec true st now (some vv) (some mm) false true =
      (some { history_write := now, last_mode := st.last_mode },
        [LoopEvent.eventAppendFail, LoopEvent.logWriteError,
          LoopEvent.sampleAppendOk mm, LoopEvent.sleepLoop]) := by
  simp [loopBody, hg, hc]

/-- Helper: gated iteration, mode change, both appends fail: the event
failure is logged, then the sample failure raises. -/
theorem loopBody_change_fail_fail (frec : ℚ) (st : LoopState) (now : ℚ) (vv mm : Nat)
    (hg : frec ≤ now - st.history_write)
    (hc : st.last_mode = none ∨ st.last_mode ≠ some mm) :
    loopBody frec true st now (some vv) (some mm) false false =
      (none, [LoopEvent.eventAppendFail, LoopEvent.logWriteError,
        LoopEvent.sampleAppendFail]) := by
  simp [loopBody, hg, hc]

/-- Helper: a missing voltage reading skips recording; the iteration only
sleeps and the loop state is unchanged. -/
theorem loopBody_voltage_missing (frec : ℚ) (st : LoopState) (now : ℚ)
    (mode : Option Nat) (evOk smOk : Bool) :
    loopBody frec true st now none mode evOk smOk =
      (some st, [LoopEvent.sleepLoop]) := by
  cases mode <;> simp [loopBody]

/-- Helper: a missing mode reading skips recording; the iteration only
sleeps and the loop state is unchanged. -/
theorem loopBody_mode_missing (frec : ℚ) (st : LoopState) (now : ℚ)
    (vv : Nat) (evOk smOk : Bool) :
    loopBody frec true st now (some vv) none evOk smOk =
      (some st, [LoopEvent.sleepLoop]) := by
  simp [loopBody]

/-- Helper: one accepted clock edge contributes one external shutdown
invocation to the trace exactly when the pulse pin samples low. -/
theorem shutdownCount_isr (st : IsrState) (e w : Bool) :
    shutdownCount (isr st CLOCK_PIN e w).2 = if e then 1 else 0 := by
  obtain ⟨a, b⟩ := st
  cases a <;> cases b <;> cases e <;> cases w <;> decide

/-- Helper: the shutdown count of a concatenated trace is the sum of the
counts of its parts. -/
theorem shutdownCount_append (l1 l2 : List Action) :
    shutdownCount (l1 ++ l2) = shutdownCount l1 + shutdownCount l2 := by
  simp [shutdownCount, List.countP_append]

/-- C1 counterexample: two rapid accepted clock edges, each of which samples
the pulse pin low, invoke the external shutdown action twice from the armed
initial state — the handler has no once-per-process-lifetime latch, so the
action is not executed at most once. -/
theorem C1_two_low_edges_two_shutdowns :
    1 < shutdownCount (runIsr initIsrState [true, true]).2 := by decide

/-- C1 (amended): each accepted clock edge whose sample is logical-low
triggers the external shutdown invocation exactly once during that handler
run, so over any sequence of accepted edges the number of shutdown
invocations equals the number of low-sampling edges — never zero once a low
sample occurs, but not bounded by one per process lifetime. -/
theorem C1_shutdown_per_low_edge (st : IsrState) (edges : List Bool) :
    shutdownCount (runIsr st edges).2 = edges.count true ∧
    (true ∈ edges → 1 ≤ shutdownCount (runIsr st edges).2) := by
  have main : ∀ (st : IsrState) (edges : List Bool),
      shutdownCount (runIsr st edges).2 = edges.count true := by
    intro st edges
    induction edges generalizing st with
    | nil => rfl
    | cons e es ih =>
      simp only [runIsr, shutdownCount_append, shutdownCount_isr, ih,
        List.count_cons]
      cases e <;> simp [Nat.add_comm]
  refine ⟨main st edges, fun hmem => ?_⟩
  rw [main st edges]
  exact List.count_pos_iff.mpr hmem

/-- C1 witness: on the edge sequence high-then-low the amended theorem
evaluates to exactly one shutdown invocation, and the low edge makes the
count positive. -/
theorem C1_shutdown_per_low_edge_witness :
    shutdownCount (runIsr initIsrState [false, true]).2 = 1 ∧
    1 ≤ shutdownCount (runIsr initIsrState [false, true]).2 := by
  refine ⟨((C1_shutdown_per_low_edge initIsrState [false, true]).1).trans (by decide),
    (C1_shutdown_per_low_edge initIsrState [false, true]).2 (by decide)⟩

/-- C3: on every accepted clock edge the handler stores into `sqwave` the
negation of the level the pin was last driving (read while the pin is still
an output), leaves `pinDriven` equal to the new `sqwave`, ends its trace by
reconfiguring the pin as output at that new level immediately before the
mutex release, and — under the armed invariant that the driven level equals
the stored heartbeat — toggles `sqwave` exactly once; an edge reported for
any other pin returns immediately with no state change and no action. -/
theorem C3_heartbeat_toggle (st : IsrState) (e w : Bool) :
    (isr st CLOCK_PIN e w).1.sqwave = !st.pinDriven ∧
    (isr st CLOCK_PIN e w).1.pinDriven = (isr st CLOCK_PIN e w).1.sqwave ∧
    List.isSuffixOf [Action.setupOutput (!st.pinDriven), Action.release]
      (isr st CLOCK_PIN e w).2 = true ∧
    (st.pinDriven = st.sqwave → (isr st CLOCK_PIN e w).1.sqwave = !st.sqwave) ∧
    (∀ ch : Nat, ch ≠ CLOCK_PIN → isr st ch e w = (st, [])) := by
  obtain ⟨a, b⟩ := st
  refine ⟨?_, ?_, ?_, ?_, ?_⟩
  · cases a <;> cases b <;> cases e <;> cases w <;> decide
  · cases a <;> cases b <;> cases e <;> cases w <;> decide
  · cases a <;> cases b <;> cases e <;> cases w <;> decide
  · cases a <;> cases b <;> cases e <;> cases w <;> decide
  · intro ch hch
    simp [isr, hch]

/-- C3 witness: the theorem evaluated at the armed initial state (driving
high): the heartbeat flips to low, and an edge from pin 17 is ignored. -/
theorem C3_heartbeat_toggle_witness :
    (isr initIsrState CLOCK_PIN false true).1.sqwave = false ∧
    isr initIsrState 17 false true = (initIsrState, []) := by
  refine ⟨((C3_heartbeat_toggle initIsrState false true).2.2.2.1 rfl).trans (by decide),
    (C3_heartbeat_toggle initIsrState false true).2.2.2.2 17 (by decide)⟩

/-- C7: in the shutdown-detection branch (pulse pin sampled low), when the
append of the shutdown-event record fails, the failure is logged and the
2-second grace wait, the external shutdown invocation and the defensive
reconfiguration of the pin back to output still execute afterwards, in this
order, before the mutex release. -/
theorem C7_shutdown_survives_log_failure (st : IsrState) :
    List.Sublist
      [Action.writeShutdownEvent false, Action.logError, Action.sleep 2,
        Action.shutdownCall, Action.setupOutput (!st.pinDriven), Action.release]
      (isr st CLOCK_PIN true false).2 := by
  obtain ⟨a, b⟩ := st
  cases a <;> cases b <;> decide

/-- C8: the interrupt handler acquires the pulse-pin mutex as its first
action and releases it as its last (each exactly once per run), the
2-second grace wait and the shutdown invocation of the shutdown branch lie
strictly between the acquire and the release, and the lock discipline
admits no step of any other handler invocation while one invocation holds
the lock — so no heartbeat toggle can interleave between shutdown detection
and power-off. -/
theorem C8_mutex_guards_shutdown :
    (∀ (st : IsrState) (w : Bool),
      (isr st CLOCK_PIN true w).2.head? = some Action.acquire ∧
      (isr st CLOCK_PIN true w).2.getLast? = some Action.release ∧
      (isr st CLOCK_PIN true w).2.count Action.acquire = 1 ∧
      (isr st CLOCK_PIN true w).2.count Action.release = 1 ∧
      Action.sleep 2 ∈ ((isr st CLOCK_PIN true w).2.drop 1).dropLast ∧
      Action.shutdownCall ∈ ((isr st CLOCK_PIN true w).2.drop 1).dropLast) ∧
    (∀ (s : Sys) (t u : Bool), s.lock = some t → u ≠ t → step s u = none) := by
  constructor
  · intro st w
    obtain ⟨a, b⟩ := st
    cases a <;> cases b <;> cases w <;> decide
  · intro s t u hl hu
    have hsome : ¬ s.lock = none := by simp [hl]
    have hsu : ¬ s.lock = some u := by
      simp only [hl, Option.some.injEq]
      exact fun h => hu h.symm
    unfold step
    split
    · rfl
    · simp [hsome, hsu]

/-- C8 witness: the trace of a low-sampling run from the armed state starts
with the mutex acquisition, and a second invocation cannot step while the
first holds the lock. -/
theorem C8_mutex_guards_shutdown_witness :
    (isr initIsrState CLOCK_PIN true true).2.head? = some Action.acquire ∧
    step { lock := some false, prog0 := [], prog1 := [Action.acquire] } true = none := by
  exact ⟨(C8_mutex_guards_shutdown.1 initIsrState true).1,
    C8_mutex_guards_shutdown.2
      { lock := some false, prog0 := [], prog1 := [Action.acquire] }
      false true rfl (by decide)⟩

/-- C6: for every raw configuration input, the loaded values of
`SHUTDOWN_DELAY`, `WATCHDOG_RPI`, `LOOP_RUN_UPS`, `POST_SHUTDOWN` and
`FREC_HISTORY` lie within [1,235], [3,10], [1,20], [10,254] and [20,3600]
respectively, and any input already within its range is loaded unchanged;
out-of-range input is silently clamped (loading is total), never
rejected. -/
theorem C6_config_clamped (raw : ConfigVars) :
    (MIN_SHUTDOWN_DELAY ≤ (load_config raw).SHUTDOWN_DELAY ∧
      (load_config raw).SHUTDOWN_DELAY ≤ MAX_SHUTDOWN_DELAY) ∧
    (MIN_WATCHDOG_RPI ≤ (load_config raw).WATCHDOG_RPI ∧
      (load_config raw).WATCHDOG_RPI ≤ MAX_WATCHDOG_RPI) ∧
    (MIN_LOOP_RUN_UPS ≤ (load_config raw).LOOP_RUN_UPS ∧
      (load_config raw).LOOP_RUN_UPS ≤ MAX_LOOP_RUN_UPS) ∧
    (MIN_POST_SHUTDOWN ≤ (load_config raw).POST_SHUTDOWN ∧
      (load_config raw).POST_SHUTDOWN ≤ MAX_POST_SHUTDOWN) ∧
    (MIN_FREC_HISTORY ≤ (load_config raw).FREC_HISTORY ∧
      (load_config raw).FREC_HISTORY ≤ MAX_FREC_HISTORY) ∧
    (MIN_SHUTDOWN_DELAY ≤ raw.SHUTDOWN_DELAY → raw.SHUTDOWN_DELAY ≤ MAX_SHUTDOWN_DELAY →
      (load_config raw).SHUTDOWN_DELAY = raw.SHUTDOWN_DELAY) ∧
    (MIN_WATCHDOG_RPI ≤ raw.WATCHDOG_RPI → raw.WATCHDOG_RPI ≤ MAX_WATCHDOG_RPI →
      (load_config raw).WATCHDOG_RPI = raw.WATCHDOG_RPI) ∧
    (MIN_LOOP_RUN_UPS ≤ raw.LOOP_RUN_UPS → raw.LOOP_RUN_UPS ≤ MAX_LOOP_RUN_UPS →
      (load_config raw).LOOP_RUN_UPS = raw.LOOP_RUN_UPS) ∧
    (MIN_POST_SHUTDOWN ≤ raw.POST_SHUTDOWN → raw.POST_SHUTDOWN ≤ MAX_POST_SHUTDOWN →
      (load_config raw).POST_SHUTDOWN = raw.POST_SHUTDOWN) ∧
    (MIN_FREC_HISTORY ≤ raw.FREC_HISTORY → raw.FREC_HISTORY ≤ MAX_FREC_HISTORY →
      (load_config raw).FREC_HISTORY = raw.FREC_HISTORY) := by
  simp only [load_config, MIN_SHUTDOWN_DELAY, MAX_SHUTDOWN_DELAY, MIN_WATCHDOG_RPI,
    MAX_WATCHDOG_RPI, MIN_LOOP_RUN_UPS, MAX_LOOP_RUN_UPS, MIN_POST_SHUTDOWN,
    MAX_POST_SHUTDOWN, MIN_FREC_HISTORY, MAX_FREC_HISTORY]
  refine ⟨by omega, by omega, by omega, by omega, ⟨le_max_left _ _, ?_⟩,
    by omega, by omega, by omega, by omega, ?_⟩
  · exact max_le (by norm_num) (min_le_right _ _)
  · intro h1 h2
    rw [min_eq_left h2, max_eq_right h1]

/-- C6 witness: an in-range configuration (the shipped default values) is
loaded unchanged, and its loaded fields satisfy the bounds. -/
theorem C6_config_clamped_witness :
    (load_config (⟨60, 5, 5, 30, 60⟩ : ConfigVars)).SHUTDOWN_DELAY = 60 ∧
    (load_config (⟨60, 5, 5, 30, 60⟩ : ConfigVars)).FREC_HISTORY = 60 := by
  have h := C6_config_clamped (⟨60, 5, 5, 30, 60⟩ : ConfigVars)
  exact ⟨h.2.2.2.2.2.1 (by decide) (by decide),
    h.2.2.2.2.2.2.2.2.2 (by norm_num [MIN_FREC_HISTORY]) (by norm_num [MAX_FREC_HISTORY])⟩

/-- C9: a shutdown-delay input of 500 is clamped to 235 while 200 is kept
(it is within [1,235]); the startup log line renders a clamped value of 181
or more as `value - 177` hours — so 200 is logged as 23 hours — and a value
below 181 as minutes. -/
theorem C9_shutdown_delay_clamp_display :
    (∀ raw : ConfigVars, raw.SHUTDOWN_DELAY = 500 →
      (load_config raw).SHUTDOWN_DELAY = 235) ∧
    (∀ raw : ConfigVars, raw.SHUTDOWN_DELAY = 200 →
      (load_config raw).SHUTDOWN_DELAY = 200) ∧
    shutdown_delay_display 200 = (23, DelayUnit.hours) ∧
    (∀ sd : ℤ, 181 ≤ sd → shutdown_delay_display sd = (sd - 177, DelayUnit.hours)) ∧
    (∀ sd : ℤ, sd < 181 → shutdown_delay_display sd = (sd, DelayUnit.minutes)) := by
  refine ⟨?_, ?_, by decide, ?_, ?_⟩
  · intro raw h
    simp only [load_config, h]
    decide
  · intro raw h
    simp only [load_config, h]
    decide
  · intro sd h
    rw [shutdown_delay_display, if_neg (by omega)]
  · intro sd h
    rw [shutdown_delay_display, if_pos h]

/-- C9 witness: the clamp evaluated at inputs 500 and 200, and the display
layer evaluated at 181 (4 hours, as the configuration file comment states)
and at 60 (minutes). -/
theorem C9_shutdown_delay_clamp_display_witness :
    (load_config (⟨500, 5, 5, 30, 60⟩ : ConfigVars)).SHUTDOWN_DELAY = 235 ∧
    (load_config (⟨200, 5, 5, 30, 60⟩ : ConfigVars)).SHUTDOWN_DELAY = 200 ∧
    shutdown_delay_display 181 = (4, DelayUnit.hours) ∧
    shutdown_delay_display 60 = (60, DelayUnit.minutes) := by
  exact ⟨C9_shutdown_delay_clamp_display.1 _ rfl,
    C9_shutdown_delay_clamp_display.2.1 _ rfl,
    C9_shutdown_delay_clamp_display.2.2.2.1 181 (by decide),
    C9_shutdown_delay_clamp_display.2.2.2.2 60 (by decide)⟩

/-- C2 counterexample: in a gated iteration with the mode unchanged, a
failed append to the periodic-sample log is neither logged nor ignored —
the iteration returns no successor state (the exception escapes the
`while`, which only handles `KeyboardInterrupt`), so the polling loop does
not continue with its next iteration. -/
theorem C2_sample_write_failure_halts_loop :
    (loopBody 60 true ⟨0, some 1⟩ 60 (some 100) (some 1) true false).1 = none ∧
    LoopEvent.logWriteError ∉
      (loopBody 60 true ⟨0, some 1⟩ 60 (some 100) (some 1) true false).2 := by
  rw [loopBody_same_mode_fail 60 ⟨0, some 1⟩ 60 100 1 true (by norm_num) (by simp)]
  simp

/-- C2 (amended): inside the steady loop only the power-event-log append is
guarded: its failure is caught, logged and otherwise ignored, and the
iteration still appends the sample line and sleeps into the next iteration;
but a failed append to the periodic-sample log is not caught by any handler
inside the loop, so it terminates the polling loop. -/
theorem C2_event_guarded_sample_fatal (frec : ℚ) (st : LoopState) (now : ℚ)
    (vv mm : Nat) (hg : frec ≤ now - st.history_write)
    (hm : st.last_mode ≠ some mm) :
    (loopBody frec true st now (some vv) (some mm) false true).1.isSome = true ∧
    LoopEvent.logWriteError ∈
      (loopBody frec true st now (some vv) (some mm) false true).2 ∧
    LoopEvent.sleepLoop ∈
      (loopBody frec true st now (some vv) (some mm) false true).2 ∧
    (∀ evOk : Bool,
      (loopBody frec true st now (some vv) (some mm) evOk false).1 = none) := by
  have hc : st.last_mode = none ∨ st.last_mode ≠ some mm := Or.inr hm
  refine ⟨?_, ?_, ?_, ?_⟩
  · rw [loopBody_change_fail_ok frec st now vv mm hg hc]
    rfl
  · rw [loopBody_change_fail_ok frec st now vv mm hg hc]
    simp
  · rw [loopBody_change_fail_ok frec st now vv mm hg hc]
    simp
  · intro evOk
    cases evOk
    · rw [loopBody_change_fail_fail frec st now vv mm hg hc]
    · rw [loopBody_change_ok_fail frec st now vv mm hg hc]

/-- C2 witness: the amended theorem evaluated at a gated iteration with a
mode change: the event-append failure is logged and the loop sleeps on,
while a sample-append failure ends the loop. -/
theorem C2_event_guarded_sample_fatal_witness :
    (loopBody 60 true ⟨0, some 1⟩ 60 (some 100) (some 2) false true).1.isSome = true ∧
    LoopEvent.logWriteError ∈
      (loopBody 60 true ⟨0, some 1⟩ 60 (some 100) (some 2) false true).2 ∧
    (loopBody 60 true ⟨0, some 1⟩ 60 (some 100) (some 2) true false).1 = none := by
  have h := C2_event_guarded_sample_fatal 60 ⟨0, some 1⟩ 60 100 2
    (by norm_num) (by decide)
  exact ⟨h.1, h.2.1, h.2.2.2 true⟩

/-- C4: with both readings available, a periodic-sample-log append is
attempted exactly when at least `FREC_HISTORY` seconds elapsed since the
last gated sample, in which case the cursor timestamp of any surviving loop
state is updated to the current time; a power-event-log append is attempted
exactly when the gate is met and the mode differs from the last recorded
one (or none was recorded); no sample append happens with a reading
missing; and two consecutive iterations that both append sample lines are
at least `FREC_HISTORY` seconds apart. -/
theorem C4_history_gating (frec : ℚ) (st : LoopState) (now : ℚ) (vv mm : Nat)
    (evOk smOk : Bool) :
    (sampleAttempted (loopBody frec true st now (some vv) (some mm) evOk smOk).2 = true ↔
      frec ≤ now - st.history_write) ∧
    (eventAttempted (loopBody frec true st now (some vv) (some mm) evOk smOk).2 = true ↔
      (frec ≤ now - st.history_write ∧
        (st.last_mode = none ∨ st.last_mode ≠ some mm))) ∧
    (∀ st' : LoopState,
      (loopBody frec true st now (some vv) (some mm) evOk smOk).1 = some st' →
      frec ≤ now - st.history_write → st'.history_write = now) ∧
    (∀ voltage mode : Option Nat,
      sampleAttempted (loopBody frec true st now voltage mode evOk smOk).2 = true →
      voltage.isSome = true ∧ mode.isSome = true) ∧
    (∀ (st' : LoopState) (now2 : ℚ) (vv2 mm2 : Nat) (evOk2 smOk2 : Bool),
      (loopBody frec true st now (some vv) (some mm) evOk smOk).1 = some st' →
      sampleAttempted (loopBody frec true st now (some vv) (some mm) evOk smOk).2 = true →
      sampleAttempted (loopBody frec true st' now2 (some vv2) (some mm2) evOk2 smOk2).2 = true →
      frec ≤ now2 - now) := by
  have key : ∀ (st : LoopState) (now : ℚ) (vv mm : Nat) (evOk smOk : Bool),
      (sampleAttempted (loopBody frec true st now (some vv) (some mm) evOk smOk).2 = true ↔
        frec ≤ now - st.history_write) ∧
      (eventAttempted (loopBody frec true st now (some vv) (some mm) evOk smOk).2 = true ↔
        (frec ≤ now - st.history_write ∧
          (st.last_mode = none ∨ st.last_mode ≠ some mm))) ∧
      (∀ st' : LoopState,
        (loopBody frec true st now (some vv) (some mm) evOk smOk).1 = some st' →
        frec ≤ now - st.history_write → st'.history_write = now) := by
    intro st now vv mm evOk smOk
    by_cases hg : frec ≤ now - st.history_write
    · by_cases hc : st.last_mode = none ∨ st.last_mode ≠ some mm
      · cases evOk <;> cases smOk
        · rw [loopBody_change_fail_fail frec st now vv mm hg hc]
          refine ⟨by simp [sampleAttempted, isSampleAttempt, hg], ?_, ?_⟩
          · simp [eventAttempted, isEventAttempt, hg, hc]
          · intro st' hst'
            simp at hst'
        · rw [loopBody_change_fail_ok frec st now vv mm hg hc]
          refine ⟨by simp [sampleAttempted, isSampleAttempt, hg], ?_, ?_⟩
          · simp [eventAttempted, isEventAttempt, hg, hc]
          · intro st' hst' _
            simp only [Option.some.injEq] at hst'
            rw [← hst']
        · rw [loopBody_change_ok_fail frec st now vv mm hg hc]
          refine ⟨by simp [sampleAttempted, isSampleAttempt, hg], ?_, ?_⟩
          · simp [eventAttempted, isEventAttempt, hg, hc]
          · intro st' hst'
            simp at hst'
        · rw [loopBody_change_ok_ok frec st now vv mm hg hc]
          refine ⟨by simp [sampleAttempted, isSampleAttempt, hg], ?_, ?_⟩
          · simp [eventAttempted, isEventAttempt, hg, hc]
          · intro st' hst' _
            simp only [Option.some.injEq] at hst'
            rw [← hst']
      · cases smOk
        · rw [loopBody_same_mode_fail frec st now vv mm evOk hg hc]
          refine ⟨by simp [sampleAttempted, isSampleAttempt, hg], ?_, ?_⟩
          · simp [eventAttempted, isEventAttempt, hg, hc]
          · intro st' hst'
            simp at hst'
        · rw [loopBody_same_mode_ok frec st now vv mm evOk hg hc]
          refine ⟨by simp [sampleAttempted, isSampleAttempt, hg], ?_, ?_⟩
          · simp [eventAttempted, isEventAttempt, hg, hc]
          · intro st' hst' _
            simp only [Option.some.injEq] at hst'
            rw [← hst']
    · rw [loopBody_no_gate frec st now vv mm evOk smOk hg]
      refine ⟨by simp [sampleAttempted, isSampleAttempt, hg], ?_, ?_⟩
      · simp [eventAttempted, isEventAttempt, hg]
      · intro st' _ hgate
        exact absurd hgate hg
  refine ⟨(key st now vv mm evOk smOk).1, (key st now vv mm evOk smOk).2.1,
    (key st now vv mm evOk smOk).2.2, ?_, ?_⟩
  · intro voltage mode h
    cases voltage with
    | none =>
      rw [loopBody_voltage_missing frec st now mode evOk smOk] at h
      simp [sampleAttempted, isSampleAttempt] at h
    | some v =>
      cases mode with
      | none =>
        rw [loopBody_mode_missing frec st now v evOk smOk] at h
        simp [sampleAttempted, isSampleAttempt] at h
      | some m => simp
  · intro st' now2 vv2 mm2 evOk2 smOk2 h1 h2 h3
    have hg : frec ≤ now - st.history_write := ((key st now vv mm evOk smOk).1).mp h2
    have hw : st'.history_write = now := (key st now vv mm evOk smOk).2.2 st' h1 hg
    have hg2 : frec ≤ now2 - st'.history_write :=
      ((key st' now2 vv2 mm2 evOk2 smOk2).1).mp h3
    rwa [hw] at hg2

/-- C4 witness: a gated iteration with unchanged mode attempts the sample
append, and the rate bound of the amended cadence property evaluated over
two consecutive gated iterations 60 seconds apart with
`FREC_HISTORY = 60`. -/
theorem C4_history_gating_witness :
    sampleAttempted (loopBody 60 true ⟨0, some 1⟩ 60 (some 100) (some 1) true true).2 = true ∧
    (60 : ℚ) ≤ 120 - 60 := by
  have h := C4_history_gating 60 ⟨0, some 1⟩ 60 100 1 true true
  have hb1 : loopBody 60 true ⟨0, some 1⟩ 60 (some 100) (some 1) true true =
      (some { history_write := 60, last_mode := some 1 },
        [LoopEvent.sampleAppendOk 1, LoopEvent.sleepLoop]) :=
    loopBody_same_mode_ok 60 ⟨0, some 1⟩ 60 100 1 true (by norm_num) (by simp)
  have hb2 : loopBody 60 true ⟨60, some 1⟩ 120 (some 100) (some 1) true true =
      (some { history_write := 120, last_mode := some 1 },
        [LoopEvent.sampleAppendOk 1, LoopEvent.sleepLoop]) :=
    loopBody_same_mode_ok 60 ⟨60, some 1⟩ 120 100 1 true (by norm_num) (by simp)
  refine ⟨h.1.mpr (by norm_num), ?_⟩
  exact h.2.2.2.2 ⟨60, some 1⟩ 120 100 1 true true
    (by rw [hb1])
    (by rw [hb1]; simp [sampleAttempted, isSampleAttempt])
    (by rw [hb2]; simp [sampleAttempted, isSampleAttempt])

/-- C5: any bus I/O failure in `read_voltage` or `read_ups_mode` is caught
inside the call (the embedding is a total function: nothing propagates past
the call boundary), logged, and yields `none`; when both bus primitives
succeed the read byte is returned with no error; and the polling loop skips
recording on a `none` reading and continues, its state unchanged, with only
the sleep of the tick. -/
theorem C5_bus_failure_unavailable (w : Except Unit Unit) (r : Except Unit Nat) :
    (∀ e : Unit, w = Except.error e ∨ r = Except.error e →
      read_voltage w r = (none, true) ∧ read_ups_mode w r = (none, true)) ∧
    (∀ v : Nat, w = Except.ok () → r = Except.ok v →
      read_voltage w r = (some v, false) ∧ read_ups_mode w r = (some v, false)) ∧
    (∀ (frec : ℚ) (st : LoopState) (now : ℚ) (mode : Option Nat) (evOk smOk : Bool),
      loopBody frec true st now none mode evOk smOk =
        (some st, [LoopEvent.sleepLoop])) ∧
    (∀ (frec : ℚ) (st : LoopState) (now : ℚ) (vv : Nat) (evOk smOk : Bool),
      loopBody frec true st now (some vv) none evOk smOk =
        (some st, [LoopEvent.sleepLoop])) := by
  refine ⟨?_, ?_, ?_, ?_⟩
  · intro e he
    cases w <;> cases r <;> simp_all [read_voltage, read_ups_mode]
  · intro v hw hr
    rw [hw, hr]
    exact ⟨rfl, rfl⟩
  · intro frec st now mode evOk smOk
    exact loopBody_voltage_missing frec st now mode evOk smOk
  · intro frec st now vv evOk smOk
    exact loopBody_mode_missing frec st now vv evOk smOk

/-- C5 witness: a failing write primitive yields an unavailable voltage, a
successful exchange returns the byte, and a tick with a missing voltage
leaves the loop state unchanged and sleeps. -/
theorem C5_bus_failure_unavailable_witness :
    read_voltage (Except.error ()) (Except.ok 5) = (none, true) ∧
    read_voltage (Except.ok ()) (Except.ok 120) = (some 120, false) ∧
    loopBody 60 true ⟨0, some 1⟩ 60 none (some 1) true true =
      (some ⟨0, some 1⟩, [LoopEvent.sleepLoop]) := by
  have h1 := C5_bus_failure_unavailable (Except.error ()) (Except.ok 5)
  have h2 := C5_bus_failure_unavailable (Except.ok ()) (Except.ok 120)
  exact ⟨(h1.1 () (Or.inl rfl)).1, (h2.2.1 120 rfl rfl).1,
    h1.2.2.1 60 ⟨0, some 1⟩ 60 (some 1) true true⟩

/-- C10: when the power-event-log append fails in a gated iteration with a
mode change, `last_mode` keeps its old value (the assignment only follows a
successful write), the failure is logged, and at the next gated sample with
the same mode the event append is attempted again. -/
theorem C10_last_mode_kept_on_event_failure (frec : ℚ) (st : LoopState)
    (now now2 : ℚ) (vv mm vv2 : Nat)
    (hg : frec ≤ now - st.history_write) (hm : st.last_mode ≠ some mm)
    (hg2 : frec ≤ now2 - now) (evOk2 smOk2 : Bool) :
    (loopBody frec true st now (some vv) (some mm) false true).1 =
      some { history_write := now, last_mode := st.last_mode } ∧
    LoopEvent.logWriteError ∈
      (loopBody frec true st now (some vv) (some mm) false true).2 ∧
    eventAttempted (loopBody frec true
      { history_write := now, last_mode := st.last_mode }
      now2 (some vv2) (some mm) evOk2 smOk2).2 = true := by
  have hc : st.last_mode = none ∨ st.last_mode ≠ some mm := Or.inr hm
  have hg2' : frec ≤ now2 -
      ({ history_write := now, last_mode := st.last_mode } : LoopState).history_write := hg2
  have hc' : ({ history_write := now, last_mode := st.last_mode } : LoopState).last_mode = none ∨
      ({ history_write := now, last_mode := st.last_mode } : LoopState).last_mode ≠ some mm :=
    Or.inr hm
  refine ⟨?_, ?_, ?_⟩
  · rw [loopBody_change_fail_ok frec st now vv mm hg hc]
  · rw [loopBody_change_fail_ok frec st now vv mm hg hc]
    simp
  · cases evOk2 <;> cases smOk2
    · rw [loopBody_change_fail_fail frec _ now2 vv2 mm hg2' hc']
      simp [eventAttempted, isEventAttempt]
    · rw [loopBody_change_fail_ok frec _ now2 vv2 mm hg2' hc']
      simp [eventAttempted, isEventAttempt]
    · rw [loopBody_change_ok_fail frec _ now2 vv2 mm hg2' hc']
      simp [eventAttempted, isEventAttempt]
    · rw [loopBody_change_ok_ok frec _ now2 vv2 mm hg2' hc']
      simp [eventAttempted, isEventAttempt]

/-- C10 witness: with no previously recorded mode and a failing event
append at time 60, the loop state keeps `last_mode = none`, and the gated
iteration at time 120 attempts the event append again. -/
theorem C10_last_mode_kept_on_event_failure_witness :
    (loopBody 60 true ⟨0, none⟩ 60 (some 100) (some 1) false true).1 =
      some { history_write := 60, last_mode := none } ∧
    eventAttempted
      (loopBody 60 true { history_write := 60, last_mode := none }
        120 (some 100) (some 1) true true).2 = true := by
  have h := C10_last_mode_kept_on_event_failure 60 ⟨0, none⟩ 60 120 100 1 100
    (by norm_num) (by decide) (by norm_num) true true
  exact ⟨h.1, h.2.2⟩

end PiGuard
